import Mathlib

/-!
Formal model of the `aac-pictos` repository: the gaze-to-selection pipeline of
the frontend (`src/front/app.js`) and the phrase-generation proxy
(`src/backend-proxy/server.js`).

JavaScript numbers that may carry `NaN` are modelled by `JsNum`; finite numeric
values and times are modelled by `ℚ` (the code does exact comparisons on values
far from float rounding boundaries).  Stateful code is modelled by explicit
state passing; network calls are modelled by an outcome parameter.
-/

namespace AacPictos

/-! ## JavaScript numbers

`typeof v === 'number'` is true for `NaN`, so a "numeric" field is a `JsNum`.
Infinities are not modelled: none of the verified properties depend on them
(under `clamp01` an infinity would behave like any other out-of-range value).
-/

/-- A JavaScript number: a finite value or `NaN`. -/
inductive JsNum where
  | num (q : ℚ)
  | nan
deriving DecidableEq

/-- `Number.isNaN`. -/
def JsNum.isNaN : JsNum → Bool
  | .nan => true
  | .num _ => false

/-- JS division of a possibly-NaN numerator by a nonzero finite denominator
(`point.x / window.innerWidth`): `NaN` propagates. -/
def JsNum.divQ : JsNum → ℚ → JsNum
  | .nan, _ => .nan
  | .num q, d => .num (q / d)

/-! ## GazeIngestor (`src/front/app.js`, `parseGazeMessage` lines 552-566,
`clamp01` line 568, `ws.onmessage` lines 504-545) -/

/-- `function clamp01(v) { return v < 0 ? 0 : v > 1 ? 1 : v; }`
(app.js line 568), on a finite value. -/
def clamp01 (v : ℚ) : ℚ := if v < 0 then 0 else if v > 1 then 1 else v

/-- `clamp01` as executed on a JS number.  For `NaN` both comparisons
`v < 0` and `v > 1` are false, so `clamp01(NaN) = NaN`. -/
def jsClamp01 : JsNum → JsNum
  | .nan => .nan
  | .num q => .num (clamp01 q)

/-- The numeric fields `parseGazeMessage` probes on a JSON-decoded message
object `j`.  A field is `some v` when it is present and `typeof` it is
`'number'` (which includes `NaN`), `none` when absent or non-numeric.
`gazeX`/`gazeY` stand for `j.gaze.x`/`j.gaze.y`. -/
structure GazeJson where
  x : Option JsNum
  y : Option JsNum
  xNorm : Option JsNum
  yNorm : Option JsNum
  gazeX : Option JsNum
  gazeY : Option JsNum
  lx : Option JsNum
  ly : Option JsNum
deriving DecidableEq

/-- One WebSocket gaze message after the decode attempt of
`parseGazeMessage` (app.js lines 552-566):
`json j` when `JSON.parse(msg)` succeeded with object `j`;
`csv sx sy` when `JSON.parse` threw and the text contains a comma, with
`sx`,`sy` the results of `Number()` on the two split components
(`Number` yields `NaN` on non-numeric text);
`nonPoint` when `JSON.parse` threw and there is no comma. -/
inductive WireMsg where
  | json (j : GazeJson)
  | csv (sx sy : JsNum)
  | nonPoint
deriving DecidableEq

/-- The record returned by `parseGazeMessage`: either pixel coordinates
`{x, y}` or pre-normalized coordinates `{xNorm, yNorm}`. -/
inductive ParsedPoint where
  | pix (x y : JsNum)
  | norm (xNorm yNorm : JsNum)
deriving DecidableEq

/-- Shape-sniffing over a JSON-decoded object, in source order:
`{x,y}`, then `{xNorm,yNorm}`, then `{gaze:{x,y}}`, then `{lx,ly}`
(app.js lines 554-558). -/
def parseJson (j : GazeJson) : Option ParsedPoint :=
  match j.x, j.y with
  | some a, some b => some (.pix a b)
  | _, _ =>
    match j.xNorm, j.yNorm with
    | some a, some b => some (.norm a b)
    | _, _ =>
      match j.gazeX, j.gazeY with
      | some a, some b => some (.pix a b)
      | _, _ =>
        match j.lx, j.ly with
        | some a, some b => some (.pix a b)
        | _, _ => none

/-- `parseGazeMessage(msg)` (app.js lines 552-566).  On the CSV fallback path
the code checks `!Number.isNaN(sx) && !Number.isNaN(sy)` and otherwise
returns `null`. -/
def parseGazeMessage : WireMsg → Option ParsedPoint
  | .json j => parseJson j
  | .csv sx sy => if sx.isNaN || sy.isNaN then none else some (.pix sx sy)
  | .nonPoint => none

/-- Some numeric field of the message is `NaN`. -/
def hasNaNField : WireMsg → Bool
  | .json j =>
      (j.x.getD (.num 0)).isNaN || (j.y.getD (.num 0)).isNaN ||
      (j.xNorm.getD (.num 0)).isNaN || (j.yNorm.getD (.num 0)).isNaN ||
      (j.gazeX.getD (.num 0)).isNaN || (j.gazeY.getD (.num 0)).isNaN ||
      (j.lx.getD (.num 0)).isNaN || (j.ly.getD (.num 0)).isNaN
  | .csv sx sy => sx.isNaN || sy.isNaN
  | .nonPoint => false

/-- A message actually decoded from wire text: the JSON grammar has no `NaN`
literal, so `JSON.parse` never yields a `NaN` number and a `NaN` numeric
field can only arise on the CSV path. -/
def wireDecodable : WireMsg → Bool
  | .json j => !(hasNaNField (.json j))
  | .csv _ _ => true
  | .nonPoint => true

/-- The coordinate-normalization step of `ws.onmessage` (app.js lines 505-508):
`const x = clamp01(point.xNorm ?? (point.x / window.innerWidth))` and
symmetrically for `y`; `none` when `parseGazeMessage` returned no point
(`if (!point) return;`). -/
def processGaze (w h : ℚ) (m : WireMsg) : Option (JsNum × JsNum) :=
  match parseGazeMessage m with
  | none => none
  | some (.pix x y) => some (jsClamp01 (x.divQ w), jsClamp01 (y.divQ h))
  | some (.norm xn yn) => some (jsClamp01 xn, jsClamp01 yn)

/-! ## SelectionBuffer (`src/front/app.js`, `chooseKey` lines 128-135,
chip removal lines 144-148, clear button lines 153-157) -/

/-- `chooseKey(key)` (app.js lines 128-135): no-op when `selected.length >= 3`,
otherwise `selected.push(key)`; the returned flag is whether the append made
the length exactly 3, which triggers `composeAndSpeak(selected)`. -/
def chooseKey (sel : List String) (key : String) : List String × Bool :=
  if 3 ≤ sel.length then (sel, false)
  else
    let sel2 := sel ++ [key]
    (sel2, sel2.length == 3)

/-- The clear button handler (app.js lines 153-157): `selected = []`. -/
def clearSelected : List String := []

/-- Selection state after `composeAndSpeak` finishes (app.js lines 431-455):
the function writes the output box and speaks the phrase but never mutates
`selected`, so the selection is returned unchanged. -/
def composeAndSpeakSelected (sel : List String) : List String := sel

/-- Selection states reachable from the initial empty `selected` array through
the operations of the code: `chooseKey`, the clear button, and removal of one
chip (`selected.splice(i, 1)`, app.js lines 144-148). -/
inductive ReachableSel : List String → Prop where
  | init : ReachableSel []
  | choose (sel k) : ReachableSel sel → ReachableSel (chooseKey sel k).1
  | clear (sel) : ReachableSel sel → ReachableSel clearSelected
  | remove (sel i) : ReachableSel sel → ReachableSel (sel.eraseIdx i)

/-! ## PhraseComposer (`src/front/app.js`, `composeLocal` lines 416-429,
`composeRemote` lines 227-292) -/

/-- `composeLocal(concepts)` (app.js lines 416-429): the deterministic local
fallback, a priority-ordered rule table over set membership of the selected
keys, with a generic template as the last resort. -/
def composeLocal (concepts : List String) : String :=
  if "yo" ∈ concepts && "agua" ∈ concepts then "Por favor, necesito un vaso de agua."
  else if "yo" ∈ concepts && "comida" ∈ concepts then "Por favor, necesito un plato de comida."
  else if "tu" ∈ concepts && "agua" ∈ concepts then "¿Puedes traerme un vaso de agua, por favor?"
  else if "yo" ∈ concepts && "baño" ∈ concepts then "Necesito ir al baño, por favor."
  else if "yo" ∈ concepts && "tele" ∈ concepts then "Quiero ver la televisión."
  else if "yo" ∈ concepts && "dormir" ∈ concepts then "Tengo sueño, quiero dormir."
  else if "yo" ∈ concepts && "ayuda" ∈ concepts then "Por favor, necesito ayuda."
  else if "yo" ∈ concepts && "dolor" ∈ concepts then "Me duele algo, no me siento bien."
  else if "yo" ∈ concepts && "calor" ∈ concepts then "Tengo mucho calor."
  else if "tu" ∈ concepts && "ayuda" ∈ concepts then "¿Puedes ayudarme, por favor?"
  else "Quiero comunicar: " ++ String.intercalate ", " concepts ++ "."

/-- Outcome of the `fetch(PROXY_ENDPOINT, ...)` call inside `composeRemote`
(app.js lines 242-261):
`abortOrNetwork` — the fetch rejected (10s `AbortController` timeout or a
network error);
`httpError s` — the response arrived with `!res.ok` (status `s`);
`jsonResponse phrase src` — an ok response whose JSON body had the given
`source`, with `phrase` the value of `data.phrase || ''` (so `""` models a
missing or empty phrase field). -/
inductive RemoteOutcome where
  | abortOrNetwork
  | httpError (status : Nat)
  | jsonResponse (phrase : String) (source : String)
deriving DecidableEq

/-- The spec-level classification of a `CompositionResult` source. -/
inductive Source where
  | remote
  | local
deriving DecidableEq

/-- Result of one `composeRemote` call together with its side effects. -/
structure ComposeResult where
  phrase : String
  source : Source
  /-- Value of the global `azureFoundryAvailable` after the call. -/
  availAfter : Bool
  /-- Whether the call issued a network request. -/
  networkUsed : Bool
deriving DecidableEq

/-- `composeRemote(concepts)` (app.js lines 227-292), as a function of the
global `azureFoundryAvailable` flag and the remote outcome.
If the flag is false the local fallback is returned with no network attempt.
Otherwise: a rejected fetch, a non-ok status (which throws after reading the
error body), or an empty/missing `phrase` (which throws
`'Respuesta vacía del proxy'`) all land in the catch block, which sets
`azureFoundryAvailable = false` and returns `composeLocal(concepts)`.
A non-empty phrase whose `source` is `'azure_foundry'` or `'azure_openai'`
is returned verbatim (remote); any other source means the remote side
degraded internally: the flag is set to false and the phrase is surfaced as
a local-class result. -/
def composeRemote (available : Bool) (outcome : RemoteOutcome)
    (concepts : List String) : ComposeResult :=
  if !available then
    { phrase := composeLocal concepts, source := .local
      availAfter := available, networkUsed := false }
  else
    match outcome with
    | .abortOrNetwork =>
        { phrase := composeLocal concepts, source := .local
          availAfter := false, networkUsed := true }
    | .httpError _ =>
        { phrase := composeLocal concepts, source := .local
          availAfter := false, networkUsed := true }
    | .jsonResponse phrase src =>
        if phrase = "" then
          { phrase := composeLocal concepts, source := .local
            availAfter := false, networkUsed := true }
        else if src = "azure_foundry" || src = "azure_openai" then
          { phrase := phrase, source := .remote
            availAfter := available, networkUsed := true }
        else
          { phrase := phrase, source := .local
            availAfter := false, networkUsed := true }

/-- The outcomes the claim calls generation failures: network/timeout error,
non-success HTTP status, or an empty/missing phrase field. -/
def isFailureOutcome : RemoteOutcome → Bool
  | .abortOrNetwork => true
  | .httpError _ => true
  | .jsonResponse phrase _ => phrase == ""

/-! ## DwellSelector (`src/front/app.js`, `beginDwell` lines 83-99,
`endDwell` lines 101-110, hit-test dispatch in `ws.onmessage` lines 540-544)

Times are `ℚ` (values of `performance.now()`); the DOM element of a card and
its `data-key` are in bijection, so the dwell target is modelled by its key.
Note the state records only `dwellTarget` and `dwellStart` — the code stores
no dwell duration per episode; every progress tick reads the current global
`currentDwellMs`. -/

/-- The module-level dwell state: `dwellTarget` (the key of the card being
dwelled, `none` when idle) and `dwellStart`. -/
structure DwellState where
  target : Option String
  start : ℚ
deriving DecidableEq

/-- `beginDwell(element, key)` (app.js lines 83-88): returns immediately when
the target is unchanged, otherwise ends any previous dwell and starts a new
episode at the current time. -/
def beginDwell (s : DwellState) (key : String) (now : ℚ) : DwellState :=
  if s.target = some key then s else { target := some key, start := now }

/-- `endDwell()` (app.js lines 101-110): clears the timer, resets the start
and the target (the progress fill is UI-only). -/
def endDwell (_s : DwellState) : DwellState := { target := none, start := 0 }

/-- One firing of the dwell interval callback (app.js lines 88-98) at time
`now`, with `currentDwellMs` the configured dwell duration **at the time of
the tick**: no-op when there is no target; otherwise
`pct = Math.min(100, elapsed / currentDwellMs * 100)` and when `pct >= 100`
the key is committed (`chooseKey(key)`, returned as `some key`) and the
episode ends. -/
def dwellTick (currentDwellMs : ℚ) (now : ℚ) (s : DwellState) :
    DwellState × Option String :=
  match s.target with
  | none => (s, none)
  | some key =>
      let elapsed := now - s.start
      let pct := min 100 (elapsed / currentDwellMs * 100)
      if 100 ≤ pct then (endDwell s, some key) else (s, none)

/-- One event delivered to the dwell machinery:
`hit k now` — the hit-test resolved to the card with key `k`
(`beginDwell(targetCard, key)`);
`miss` — the hit-test resolved to no eligible card, or the pointer left
(`endDwell()`);
`tick now` — the dwell interval callback fired. -/
inductive GazeEvent where
  | hit (key : String) (now : ℚ)
  | miss
  | tick (now : ℚ)
deriving DecidableEq

/-- Dispatch one event, returning the new state and the key committed to the
selection buffer by this event, if any. -/
def stepEvent (d : ℚ) (s : DwellState) : GazeEvent → DwellState × Option String
  | .hit k now => (beginDwell s k now, none)
  | .miss => (endDwell s, none)
  | .tick now => dwellTick d now s

/-- Run a sequence of events with the configured dwell duration `d`,
collecting the keys committed to the selection buffer in order. -/
def runEvents (d : ℚ) (s : DwellState) : List GazeEvent → DwellState × List String
  | [] => (s, [])
  | e :: rest =>
      let r := stepEvent d s e
      let r2 := runEvents d r.1 rest
      (r2.1, r.2.toList ++ r2.2)

/-- Events that keep a dwell episode started at `t0` on target `T` alive
without reaching the threshold: further hit-test resolutions to `T` (no-ops
while `T` is already the target) and interval ticks strictly before the
commit time `t0 + d`. -/
def preCommitEvent (T : String) (t0 d : ℚ) : GazeEvent → Bool
  | .hit k _ => k == T
  | .miss => false
  | .tick τ => decide (τ - t0 < d)

/-- Events after a commit at time `t1` in which the hit-test keeps resolving
to `T` (at or after `t1`) and interval ticks fire strictly before a full new
dwell duration has elapsed (`τ < t1 + d`). -/
def postCommitEvent (T : String) (t1 d : ℚ) : GazeEvent → Bool
  | .hit k τ => k == T && decide (t1 ≤ τ)
  | .miss => false
  | .tick τ => decide (τ < t1 + d)

/-! ## AvailabilityMonitor (`src/front/app.js`, globals lines 29-34,
`updateAzureStatus` lines 295-313, `retryAzureConnection` lines 316-338,
`checkAzureFoundryStatus` lines 341-383) -/

/-- `MAX_RETRY_ATTEMPTS` (app.js line 33). -/
def MAX_RETRY_ATTEMPTS : Nat := 3

/-- `RETRY_DELAYS` (app.js line 34), in milliseconds. -/
def RETRY_DELAYS : List Nat := [2000, 5000, 10000]

/-- `RETRY_DELAYS[attempt] || RETRY_DELAYS[RETRY_DELAYS.length - 1]`
(app.js line 323): the delay table indexed by attempt number, attempts beyond
the table reusing the last delay. -/
def retryDelay (attempt : Nat) : Nat :=
  match RETRY_DELAYS.get? attempt with
  | some d => d
  | none => 10000

/-- Substring occurrence over character lists: some suffix of the text starts
with `sub`. -/
def hasSubChars (sub : List Char) : List Char → Bool
  | [] => sub.isEmpty
  | c :: rest => sub.isPrefixOf (c :: rest) || hasSubChars sub rest

/-- JS `message.includes(sub)`. -/
def includesSub (s sub : String) : Bool := hasSubChars sub.data s.data

/-- The transience test of `checkAzureFoundryStatus` (app.js line 366):
`data.message.includes('timeout') || data.message.includes('Timeout')`. -/
def isTransientMsg (m : String) : Bool :=
  includesSub m "timeout" || includesSub m "Timeout"

/-- Outcome of one availability probe
(`fetch('http://localhost:3002/api/test-connection', ...)`, app.js
lines 349-352):
`connected` — ok response with body `status: 'connected'`;
`errorStatus m` — ok response with a non-connected status and `message` `m`;
`httpFail s` — `!testResponse.ok` with status `s`;
`probeException` — the fetch threw (network error or 5s timeout). -/
inductive ProbeOutcome where
  | connected
  | errorStatus (message : String)
  | httpFail (status : Nat)
  | probeException
deriving DecidableEq

/-- `checkAzureFoundryStatus` (app.js lines 341-383) reduced to its control
outcome: `(success, spawnsRetryChain)`.  Only the ok/`status:'error'` branch
can spawn `retryAzureConnection(0)`, and only when
`azureRetryCount < MAX_RETRY_ATTEMPTS` and the message text looks transient.
In the code `azureRetryCount` is declared at line 31, reset to 0 on success
(line 305) and **never incremented anywhere**, so at every probe its value
is 0. -/
def checkAzureStatus (azureRetryCount : Nat) : ProbeOutcome → Bool × Bool
  | .connected => (true, false)
  | .errorStatus m =>
      (false, decide (azureRetryCount < MAX_RETRY_ATTEMPTS) && isTransientMsg m)
  | .httpFail _ => (false, false)
  | .probeException => (false, false)

/-- Total number of availability probes performed by `retryAzureConnection
(attempt)` (app.js lines 316-338) together with every retry chain it
transitively spawns, when every probe yields the same outcome `out`.
Each loop iteration below the `attempt >= MAX_RETRY_ATTEMPTS` cap sleeps,
performs one probe (`checkAzureFoundryStatus(false)`); a failing transient
probe fires `retryAzureConnection(0)` without awaiting it (app.js line 368) —
the spawned chain's probes are counted too — and a failing probe continues
the chain at `attempt + 1`.  `fuel` truncates the spawn tree depth, so the
result is a lower bound on the probes the unbounded execution performs. -/
def retryProbes (out : ProbeOutcome) : Nat → Nat → Nat
  | 0, _ => 0
  | fuel + 1, attempt =>
      if MAX_RETRY_ATTEMPTS ≤ attempt then 0
      else
        let r := checkAzureStatus 0 out
        1 + (if r.2 then retryProbes out fuel 0 else 0)
          + (if r.1 then 0 else retryProbes out fuel (attempt + 1))

/-! ## Generation proxy (`src/backend-proxy/server.js`,
`app.post('/api/generate-phrase')` lines 109-227,
`generateLocalFallback` lines 230-234) -/

/-- The `concepts` field of the request body:
`missing` — absent or otherwise falsy (`!concepts`);
`notArray` — present but `!Array.isArray(concepts)`;
`arr cs` — an array of strings. -/
inductive ConceptsField where
  | missing
  | notArray
  | arr (cs : List String)
deriving DecidableEq

/-- The request body fields that determine the response shape: `concepts` and
`language` (`context` and `translatedConcepts` only shape the AI prompt). -/
structure GenBody where
  concepts : ConceptsField
  language : Option String
deriving DecidableEq

/-- The input-validation predicate of the handler (server.js line 114):
`!concepts || !Array.isArray(concepts) || concepts.length === 0`. -/
def invalidConcepts : ConceptsField → Bool
  | .missing => true
  | .notArray => true
  | .arr cs => cs.isEmpty

/-- Outcome of the Azure OpenAI portion of the handler:
`notInitialized` — `azureOpenAIClient` is null;
`returns text` — the chat completion succeeded and
`completion.choices?.[0]?.message?.content?.trim()` is `text` (`""` models a
missing or empty content, i.e. `!text`);
`raises msg` — the call threw with `error.message = msg` (network,
authentication, quota, ...). -/
inductive AzureCall where
  | notInitialized
  | returns (text : String)
  | raises (msg : String)
deriving DecidableEq

/-- An HTTP response of the generation endpoint: `badRequest` is a 400 with
an error body; `ok` is a 200 whose JSON body has the given `phrase`,
`source`, optional `reason` and optional `error` fields. -/
inductive GenResponse where
  | badRequest (error : String)
  | ok (phrase : String) (source : String) (reason : Option String)
      (err : Option String)
deriving DecidableEq

/-- Whether a response is the 400 error response. -/
def GenResponse.isBadRequest : GenResponse → Bool
  | .badRequest _ => true
  | .ok _ _ _ _ => false

/-- `generateLocalFallback(concepts, language)` (server.js lines 230-234):
a fixed unavailability sentence chosen by language; the concepts are
ignored. -/
def generateLocalFallback (_concepts : List String) (language : String) :
    String :=
  if language = "en" then "AI service temporarily unavailable."
  else "Servicio de IA temporalmente no disponible."

/-- The `POST /api/generate-phrase` handler (server.js lines 109-227) as a
function of the request body and the Azure call outcome.
Validation failure returns 400.  A null client returns 200 with the local
fallback, `source: 'local_fallback'`, `reason: 'azure_not_initialized'`.
An empty completion returns 200 with the fallback and
`reason: 'empty_response'`.  A non-empty completion returns 200 with
`source: 'azure_openai'`.  A thrown error is caught and answered with 200:
the fallback phrase (`req.body.language || 'es'` chooses its language),
`source: 'local_fallback'` and the error message. -/
def generatePhrase (body : GenBody) (azure : AzureCall) : GenResponse :=
  match body.concepts with
  | .missing => .badRequest "A valid concepts array is required"
  | .notArray => .badRequest "A valid concepts array is required"
  | .arr cs =>
      if cs.isEmpty then .badRequest "A valid concepts array is required"
      else
        let languageCode := if body.language = some "en" then "en" else "es"
        match azure with
        | .notInitialized =>
            .ok (generateLocalFallback cs languageCode) "local_fallback"
              (some "azure_not_initialized") none
        | .returns text =>
            if text = "" then
              .ok (generateLocalFallback cs languageCode) "local_fallback"
                (some "empty_response") none
            else
              .ok text "azure_openai" none none
        | .raises msg =>
            .ok (generateLocalFallback cs (body.language.getD "es"))
              "local_fallback" none (some msg)

/-! ## Helper lemmas -/

/-- Removing one index never lengthens a list. -/
theorem length_eraseIdx_le (l : List α) (i : Nat) :
    (l.eraseIdx i).length ≤ l.length := by
  induction l generalizing i with
  | nil => simp [List.eraseIdx]
  | cons a rest ih =>
      cases i with
      | zero => simp [List.eraseIdx]
      | succ j =>
          simpa [List.eraseIdx] using Nat.succ_le_succ (ih j)

/-- The dwell progress `min(100, elapsed / dwellMs * 100)` reaches 100 exactly
when the elapsed time reaches the dwell duration. -/
theorem pct_reaches_iff (d e : ℚ) (hd : 0 < d) :
    100 ≤ min 100 (e / d * 100) ↔ d ≤ e := by
  rw [le_min_iff]
  constructor
  · rintro ⟨-, h⟩
    have h1 : (1 : ℚ) ≤ e / d := by linarith
    exact (one_le_div hd).mp h1
  · intro h
    have h1 : (1 : ℚ) ≤ e / d := (one_le_div hd).mpr h
    exact ⟨le_refl _, by linarith⟩

/-- A tick at or past the threshold commits the dwelled key and ends the
episode. -/
theorem dwellTick_commit (d now st : ℚ) (k : String) (hd : 0 < d)
    (h : d ≤ now - st) :
    dwellTick d now ⟨some k, st⟩ = (⟨none, 0⟩, some k) := by
  simp [dwellTick, endDwell, (pct_reaches_iff d (now - st) hd).mpr h]

/-- A tick strictly before the threshold leaves the episode untouched and
commits nothing. -/
theorem dwellTick_noCommit (d now st : ℚ) (k : String) (hd : 0 < d)
    (h : ¬ d ≤ now - st) :
    dwellTick d now ⟨some k, st⟩ = (⟨some k, st⟩, none) := by
  have hp : ¬ 100 ≤ min 100 ((now - st) / d * 100) :=
    fun hc => h ((pct_reaches_iff d (now - st) hd).mp hc)
  simp [dwellTick, hp]

/-- `runEvents` splits over list concatenation. -/
theorem runEvents_append (d : ℚ) (s : DwellState) (l1 l2 : List GazeEvent) :
    runEvents d s (l1 ++ l2) =
      ((runEvents d (runEvents d s l1).1 l2).1,
       (runEvents d s l1).2 ++ (runEvents d (runEvents d s l1).1 l2).2) := by
  induction l1 generalizing s with
  | nil => simp [runEvents]
  | cons e rest ih => simp [runEvents, ih (stepEvent d s e).1]

/-- Before the threshold, continued hits on the dwelled target and early
ticks leave the episode state untouched and commit nothing. -/
theorem runEvents_preCommit (d t0 : ℚ) (T : String) (hd : 0 < d) :
    ∀ evs : List GazeEvent, evs.all (preCommitEvent T t0 d) = true →
      runEvents d ⟨some T, t0⟩ evs = (⟨some T, t0⟩, []) := by
  intro evs
  induction evs with
  | nil => intro _; rfl
  | cons e rest ih =>
      intro hall
      rw [List.all_cons, Bool.and_eq_true] at hall
      obtain ⟨he, hrest⟩ := hall
      cases e with
      | hit k now =>
          have hk : k = T := by simpa [preCommitEvent] using he
          subst hk
          simp [runEvents, stepEvent, beginDwell, ih hrest]
      | miss => simp [preCommitEvent] at he
      | tick τ =>
          have hτ : τ - t0 < d := by simpa [preCommitEvent] using he
          have hstep := dwellTick_noCommit d τ t0 T hd (by linarith)
          simp [runEvents, stepEvent, hstep, ih hrest]

/-- After a commit, further hit-test resolutions to the same target and ticks
within a fresh dwell duration commit nothing: the invariant is that the state
is idle or a new episode on `T` started no earlier than the commit time. -/
theorem runEvents_postCommit (d t1 : ℚ) (T : String) (hd : 0 < d) :
    ∀ (evs : List GazeEvent) (s : DwellState),
      (s = ⟨none, 0⟩ ∨ (s.target = some T ∧ t1 ≤ s.start)) →
      evs.all (postCommitEvent T t1 d) = true →
      (runEvents d s evs).2 = [] := by
  intro evs
  induction evs with
  | nil => intro s _ _; rfl
  | cons e rest ih =>
      intro s hs hall
      rw [List.all_cons, Bool.and_eq_true] at hall
      obtain ⟨he, hrest⟩ := hall
      cases e with
      | hit k τ =>
          have hk : k = T ∧ t1 ≤ τ := by
            simpa [postCommitEvent, Bool.and_eq_true] using he
          obtain ⟨hkT, hτ⟩ := hk
          subst hkT
          rcases hs with hidle | ⟨htgt, hst⟩
          · subst hidle
            have : beginDwell ⟨none, 0⟩ k τ = ⟨some k, τ⟩ := by
              simp [beginDwell]
            simp only [runEvents, stepEvent, this, Option.toList_none,
              List.nil_append]
            exact ih ⟨some k, τ⟩ (Or.inr ⟨rfl, hτ⟩) hrest
          · have : beginDwell s k τ = s := by simp [beginDwell, htgt]
            simp only [runEvents, stepEvent, this, Option.toList_none,
              List.nil_append]
            exact ih s (Or.inr ⟨htgt, hst⟩) hrest
      | miss => simp [postCommitEvent] at he
      | tick τ =>
          have hτ : τ < t1 + d := by simpa [postCommitEvent] using he
          rcases hs with hidle | ⟨htgt, hst⟩
          · subst hidle
            simp only [runEvents, stepEvent, dwellTick, Option.toList_none,
              List.nil_append]
            exact ih ⟨none, 0⟩ (Or.inl rfl) hrest
          · obtain ⟨tgt, st⟩ := s
            simp only at htgt hst
            subst htgt
            have hstep := dwellTick_noCommit d τ st T hd (by linarith)
            simp only [runEvents, stepEvent, hstep, Option.toList_none,
              List.nil_append]
            exact ih ⟨some T, st⟩ (Or.inr ⟨rfl, hst⟩) hrest

/-! ## Claims -/

/-- C7: for every real coordinate `v` (in particular outside `[0,1]`),
`clamp01` returns a value in `[0,1]`, and clamping twice gives the same
result as clamping once. -/
theorem clamp01_range_and_idempotent (v : ℚ) :
    0 ≤ clamp01 v ∧ clamp01 v ≤ 1 ∧ clamp01 (clamp01 v) = clamp01 v := by
  by_cases h1 : v < 0
  · simp [clamp01, h1]
  · by_cases h2 : v > 1
    · norm_num [clamp01, h1, h2]
    · push_neg at h1 h2
      simp [clamp01, not_lt.mpr h1, not_lt.mpr h2]
      exact ⟨h1, h2⟩

/-- C3: every selection state reachable through the code's operations has
length at most 3, and `chooseKey` on a length-3 selection is a no-op that
leaves the selection unchanged (and triggers nothing). -/
theorem selection_never_exceeds_three :
    (∀ sel, ReachableSel sel → sel.length ≤ 3) ∧
    (∀ sel key, sel.length = 3 → chooseKey sel key = (sel, false)) := by
  constructor
  · intro sel h
    induction h with
    | init => simp
    | choose sel k _ ih =>
        by_cases h3 : 3 ≤ sel.length
        · simpa [chooseKey, h3] using ih
        · have : sel.length ≤ 2 := by omega
          simp [chooseKey, h3]
          omega
    | clear sel _ _ => simp [clearSelected]
    | remove sel i _ ih => exact le_trans (length_eraseIdx_le sel i) ih
  · intro sel key h
    simp [chooseKey, h]

/-- C3 witness: a concrete reachable selection of length at most 3, and a
concrete length-3 selection on which `chooseKey` is a no-op. -/
theorem selection_never_exceeds_three_witness :
    ReachableSel ["yo"] ∧ (["yo"] : List String).length ≤ 3 ∧
    (["yo", "agua", "si"] : List String).length = 3 ∧
    chooseKey ["yo", "agua", "si"] "no" = (["yo", "agua", "si"], false) := by
  have h1 : ReachableSel ["yo"] := ReachableSel.choose [] "yo" ReachableSel.init
  exact ⟨h1, selection_never_exceeds_three.1 _ h1, rfl,
    selection_never_exceeds_three.2 _ _ rfl⟩

/-- C4 counterexample: appending the third key triggers composition, but the
selection after `composeAndSpeak` completes is still the full length-3
sequence, not the empty one the claim requires. -/
theorem composition_not_cleared_cex :
    chooseKey ["yo", "agua"] "si" = (["yo", "agua", "si"], true) ∧
    composeAndSpeakSelected ["yo", "agua", "si"] = ["yo", "agua", "si"] ∧
    ["yo", "agua", "si"] ≠ ([] : List String) :=
  ⟨rfl, rfl, by simp⟩

/-- C4 (amended): completing the triggered phrase composition leaves the
selection unchanged — the code never clears it on composition completion;
the selection is cleared only by the explicit user clear. -/
theorem composition_leaves_selection (sel : List String) :
    composeAndSpeakSelected sel = sel ∧ clearSelected = ([] : List String) :=
  ⟨rfl, rfl⟩

/-- C6: a wire-decodable gaze message with a `NaN` numeric field yields
"no point": it is discarded by `parseGazeMessage` and never reaches the
clamp in `ws.onmessage`. -/
theorem nan_message_no_point (m : WireMsg) (w h : ℚ)
    (hwire : wireDecodable m = true) (hnan : hasNaNField m = true) :
    parseGazeMessage m = none ∧ processGaze w h m = none := by
  cases m with
  | json j =>
      rw [wireDecodable, hnan] at hwire
      simp at hwire
  | csv sx sy =>
      have : (sx.isNaN || sy.isNaN) = true := by
        simpa [hasNaNField] using hnan
      constructor
      · simp [parseGazeMessage, this]
      · simp [processGaze, parseGazeMessage, this]
  | nonPoint => simp [hasNaNField] at hnan

/-- C6 witness: the CSV message `"NaN,0.5"` (the only wire shape that can
carry a `NaN` numeric field) is discarded. -/
theorem nan_message_no_point_witness :
    wireDecodable (.csv .nan (.num (1/2))) = true ∧
    hasNaNField (.csv .nan (.num (1/2))) = true ∧
    (parseGazeMessage (.csv .nan (.num (1/2))) = none ∧
     processGaze 1920 1080 (.csv .nan (.num (1/2))) = none) :=
  ⟨rfl, rfl, nan_message_no_point (.csv .nan (.num (1/2))) 1920 1080 rfl rfl⟩

/-- C1: while availability is true, a failed generation (network/timeout
error, non-success HTTP status, or empty/missing phrase) returns the local
fallback with `source = local` and flips the availability flag to false; any
subsequent call made while the flag is false returns the local fallback with
no network request. -/
theorem compose_failure_local_fallback (concepts concepts2 : List String)
    (outcome outcome2 : RemoteOutcome)
    (hfail : isFailureOutcome outcome = true) :
    (composeRemote true outcome concepts).phrase = composeLocal concepts ∧
    (composeRemote true outcome concepts).source = .local ∧
    (composeRemote true outcome concepts).availAfter = false ∧
    (composeRemote false outcome2 concepts2).networkUsed = false ∧
    (composeRemote false outcome2 concepts2).phrase = composeLocal concepts2 ∧
    (composeRemote false outcome2 concepts2).source = .local := by
  cases outcome with
  | abortOrNetwork => simp [composeRemote]
  | httpError s => simp [composeRemote]
  | jsonResponse phrase src =>
      have hp : phrase = "" := by simpa [isFailureOutcome] using hfail
      subst hp
      simp [composeRemote]

/-- C1 witness: concepts `["yo", "agua"]` with a timed-out remote call fall
back locally, flip availability, and the next call skips the network. -/
theorem compose_failure_local_fallback_witness :
    isFailureOutcome .abortOrNetwork = true ∧
    ((composeRemote true .abortOrNetwork ["yo", "agua"]).phrase =
        composeLocal ["yo", "agua"] ∧
     (composeRemote true .abortOrNetwork ["yo", "agua"]).source = .local ∧
     (composeRemote true .abortOrNetwork ["yo", "agua"]).availAfter = false ∧
     (composeRemote false (.jsonResponse "Hola" "azure_openai")
        ["tu", "ayuda"]).networkUsed = false ∧
     (composeRemote false (.jsonResponse "Hola" "azure_openai")
        ["tu", "ayuda"]).phrase = composeLocal ["tu", "ayuda"] ∧
     (composeRemote false (.jsonResponse "Hola" "azure_openai")
        ["tu", "ayuda"]).source = .local) :=
  ⟨rfl, compose_failure_local_fallback ["yo", "agua"] ["tu", "ayuda"]
    .abortOrNetwork (.jsonResponse "Hola" "azure_openai") rfl⟩

/-- C9 counterexample: a valid request answered from the local fallback has
`source: 'local_fallback'` on the wire — neither the literal `"remote"` nor
the literal `"local"` the claim requires. -/
theorem generate_source_literal_cex :
    generatePhrase ⟨.arr ["yo", "agua"], none⟩ .notInitialized =
      .ok "Servicio de IA temporalmente no disponible." "local_fallback"
        (some "azure_not_initialized") none ∧
    ("local_fallback" : String) ≠ "remote" ∧
    ("local_fallback" : String) ≠ "local" :=
  ⟨rfl, by decide, by decide⟩

/-- C9 (amended): the endpoint responds 400 exactly when the `concepts` field
is missing, not an array, or empty; otherwise it responds 200 with a phrase
and a `source` that is `'azure_openai'` (remote generation) or
`'local_fallback'` (local fallback). -/
theorem generate_phrase_response_shape (body : GenBody) (azure : AzureCall) :
    ((generatePhrase body azure).isBadRequest = true ↔
      invalidConcepts body.concepts = true) ∧
    (invalidConcepts body.concepts = false →
      ∃ p s r e, generatePhrase body azure = .ok p s r e ∧
        (s = "azure_openai" ∨ s = "local_fallback")) := by
  obtain ⟨c, lang⟩ := body
  cases c with
  | missing => simp [generatePhrase, invalidConcepts, GenResponse.isBadRequest]
  | notArray => simp [generatePhrase, invalidConcepts, GenResponse.isBadRequest]
  | arr cs =>
      by_cases hcs : cs.isEmpty
      · simp [generatePhrase, invalidConcepts, GenResponse.isBadRequest, hcs]
      · cases azure with
        | notInitialized =>
            exact ⟨by simp [generatePhrase, invalidConcepts,
                GenResponse.isBadRequest, hcs],
              fun _ =>
                ⟨generateLocalFallback cs (if lang = some "en" then "en" else "es"),
                 "local_fallback", some "azure_not_initialized", none,
                 by simp [generatePhrase, hcs], Or.inr rfl⟩⟩
        | returns text =>
            by_cases ht : text = ""
            · exact ⟨by simp [generatePhrase, invalidConcepts,
                  GenResponse.isBadRequest, hcs, ht],
                fun _ =>
                  ⟨generateLocalFallback cs (if lang = some "en" then "en" else "es"),
                   "local_fallback", some "empty_response", none,
                   by simp [generatePhrase, hcs, ht], Or.inr rfl⟩⟩
            · exact ⟨by simp [generatePhrase, invalidConcepts,
                  GenResponse.isBadRequest, hcs, ht],
                fun _ =>
                  ⟨text, "azure_openai", none, none,
                   by simp [generatePhrase, hcs, ht], Or.inl rfl⟩⟩
        | raises msg =>
            exact ⟨by simp [generatePhrase, invalidConcepts,
                GenResponse.isBadRequest, hcs],
              fun _ =>
                ⟨generateLocalFallback cs (lang.getD "es"),
                 "local_fallback", none, some msg,
                 by simp [generatePhrase, hcs], Or.inr rfl⟩⟩

/-- C9 witness: a valid one-concept request with a successful completion is a
200 whose source is one of the two wire values. -/
theorem generate_phrase_response_shape_witness :
    invalidConcepts (ConceptsField.arr ["yo"]) = false ∧
    ∃ p s r e, generatePhrase ⟨.arr ["yo"], none⟩ (.returns "Hola") =
        .ok p s r e ∧ (s = "azure_openai" ∨ s = "local_fallback") :=
  ⟨rfl, (generate_phrase_response_shape ⟨.arr ["yo"], none⟩
    (.returns "Hola")).2 rfl⟩

/-- C10: when the AI call throws after validation passed, the proxy still
responds 200 with the non-empty local fallback phrase and
`source: 'local_fallback'`; the upstream failure is never surfaced as an
error status. -/
theorem generate_error_still_ok (cs : List String) (lang : Option String)
    (msg : String) (hcs : cs.isEmpty = false) :
    generatePhrase ⟨.arr cs, lang⟩ (.raises msg) =
      .ok (generateLocalFallback cs (lang.getD "es")) "local_fallback" none
        (some msg) ∧
    generateLocalFallback cs (lang.getD "es") ≠ "" := by
  constructor
  · simp [generatePhrase, hcs]
  · unfold generateLocalFallback
    split <;> decide

/-- C10 witness: a valid request whose AI call throws `connect ETIMEDOUT` is
answered 200 with the Spanish fallback sentence. -/
theorem generate_error_still_ok_witness :
    (["yo", "agua"] : List String).isEmpty = false ∧
    (generatePhrase ⟨.arr ["yo", "agua"], none⟩ (.raises "connect ETIMEDOUT") =
      .ok (generateLocalFallback ["yo", "agua"]
        ((none : Option String).getD "es")) "local_fallback" none
        (some "connect ETIMEDOUT") ∧
     generateLocalFallback ["yo", "agua"]
        ((none : Option String).getD "es") ≠ "") :=
  ⟨rfl, generate_error_still_ok ["yo", "agua"] none "connect ETIMEDOUT" rfl⟩

/-- C5: evaluation of the retry machinery at the claim's scenario.  The delay
table behaves as claimed, but with every probe failing transiently
(`'Timeout connecting to Azure OpenAI'`), the spawn tree truncated at depth 4
already performs 14 automatic probes — the code schedules a 4th (and more)
automatic retry after 3 consecutive transient failures, because every failing
transient probe inside a chain fires a fresh `retryAzureConnection(0)` and
the `azureRetryCount` guard never blocks (the counter is never
incremented). -/
theorem retry_probe_tree_exceeds_cap :
    retryDelay 0 = 2000 ∧ retryDelay 1 = 5000 ∧ retryDelay 2 = 10000 ∧
    retryDelay 7 = 10000 ∧
    retryProbes (.errorStatus "Timeout connecting to Azure OpenAI") 4 0 = 14 ∧
    3 < retryProbes (.errorStatus "Timeout connecting to Azure OpenAI") 4 0 :=
  ⟨rfl, rfl, rfl, rfl, by decide, by decide⟩

/-- C2: a target `T` dwelled continuously from `t0` commits exactly once per
dwell episode: events before the threshold (re-hits on `T` and early ticks)
commit nothing, the first tick at or past `t0 + dwellMs` commits `T`, and
events after the commit in which the hit-test keeps resolving to `T` (plus
ticks within a fresh dwell duration) commit nothing further — the run emits
exactly `[T]` to the selection buffer. -/
theorem dwell_commits_exactly_once (d t0 t1 : ℚ) (T : String)
    (evs0 evs1 : List GazeEvent)
    (hd : 0 < d)
    (h0 : evs0.all (preCommitEvent T t0 d) = true)
    (h1 : d ≤ t1 - t0)
    (h2 : evs1.all (postCommitEvent T t1 d) = true) :
    (runEvents d (beginDwell ⟨none, 0⟩ T t0)
        (evs0 ++ GazeEvent.tick t1 :: evs1)).2 = [T] := by
  have hb : beginDwell ⟨none, 0⟩ T t0 = ⟨some T, t0⟩ := by simp [beginDwell]
  have hstep : stepEvent d ⟨some T, t0⟩ (GazeEvent.tick t1) =
      (⟨none, 0⟩, some T) := by
    simpa [stepEvent] using dwellTick_commit d t1 t0 T hd h1
  have hpost := runEvents_postCommit d t1 T hd evs1 ⟨none, 0⟩ (Or.inl rfl) h2
  rw [hb, runEvents_append, runEvents_preCommit d t0 T hd evs0 h0]
  simp [runEvents, hstep, hpost]

/-- C2 witness: a concrete 2500 ms dwell on `"agua"` with re-hits and ticks
before the threshold, the committing tick at t = 2500, and continued hits
and ticks afterwards, emitting exactly `["agua"]`. -/
theorem dwell_commits_exactly_once_witness :
    (0 : ℚ) < 2500 ∧
    [GazeEvent.hit "agua" 100, GazeEvent.tick 1060].all
      (preCommitEvent "agua" 0 2500) = true ∧
    (2500 : ℚ) ≤ 2500 - 0 ∧
    [GazeEvent.hit "agua" 2500, GazeEvent.tick 2560,
      GazeEvent.tick 4990].all (postCommitEvent "agua" 2500 2500) = true ∧
    (runEvents 2500 (beginDwell ⟨none, 0⟩ "agua" 0)
        ([GazeEvent.hit "agua" 100, GazeEvent.tick 1060] ++
          GazeEvent.tick 2500 ::
          [GazeEvent.hit "agua" 2500, GazeEvent.tick 2560,
            GazeEvent.tick 4990])).2 = ["agua"] := by
  have h0 : [GazeEvent.hit "agua" 100, GazeEvent.tick 1060].all
      (preCommitEvent "agua" 0 2500) = true := by
    norm_num [preCommitEvent]
  have h2 : [GazeEvent.hit "agua" 2500, GazeEvent.tick 2560,
      GazeEvent.tick 4990].all (postCommitEvent "agua" 2500 2500) = true := by
    norm_num [postCommitEvent]
  exact ⟨by norm_num, h0, by norm_num, h2,
    dwell_commits_exactly_once 2500 0 2500 "agua" _ _ (by norm_num) h0
      (by norm_num) h2⟩

/-- C8 counterexample: an episode on `"agua"` starts at t = 0 while the
configured dwell duration is 2500 ms; mid-episode the slider sets
`currentDwellMs = 100`, and the next interval tick at t = 200 commits — the
in-progress episode follows the new value (under the 2500 ms value in effect
when it started, the same tick would not commit). -/
theorem dwell_duration_change_cex :
    dwellTick 100 200 ⟨some "agua", 0⟩ = (⟨none, 0⟩, some "agua") ∧
    dwellTick 2500 200 ⟨some "agua", 0⟩ = (⟨some "agua", 0⟩, none) :=
  ⟨dwellTick_commit 100 200 0 "agua" (by norm_num) (by norm_num),
   dwellTick_noCommit 2500 200 0 "agua" (by norm_num) (by norm_num)⟩

/-- C8 (amended): the dwell state records only the target and the start time
— no per-episode duration — so a progress tick commits exactly when the
elapsed time reaches the *currently configured* `currentDwellMs`: changing
the dwell duration takes effect immediately, including for the episode in
progress. -/
theorem dwell_tick_uses_current_duration (d now t0 : ℚ) (k : String)
    (hd : 0 < d) :
    (dwellTick d now ⟨some k, t0⟩).2 = some k ↔ d ≤ now - t0 := by
  by_cases h : d ≤ now - t0
  · simp [dwellTick_commit d now t0 k hd h, h]
  · simp [dwellTick_noCommit d now t0 k hd h, h]

/-- C8 witness: with the duration currently set to 100 ms, the tick at
t = 200 on an episode started at t = 0 commits. -/
theorem dwell_tick_uses_current_duration_witness :
    (0 : ℚ) < 100 ∧
    ((dwellTick 100 200 ⟨some "agua", 0⟩).2 = some "agua" ↔
      (100 : ℚ) ≤ 200 - 0) :=
  ⟨by norm_num,
   dwell_tick_uses_current_duration 100 200 0 "agua" (by norm_num)⟩

end AacPictos
